import Mathlib

/-!
Verification of the EEG sleep-monitor signal pipeline (the core selected by the
specification): stage timeline generation, stage-specific waveform synthesis,
channel data generation, CSV ingestion, and windowed sleep-event detection.

The definitions below are a shallow embedding of the JavaScript source
(`AdvancedEEGSleepMonitor`).  Modelling conventions:
* JS numbers are modelled as exact rationals `ℚ` (the algorithms only use
  field operations, `Math.floor`, `Math.abs`, `Math.min`/`max` and comparisons
  on values where exact arithmetic matches the intent of the code).
* `Math.random()` is modelled by an explicit stream of rationals (`RNG`)
  threaded through every function in the exact order the source consumes
  random values (short-circuit evaluation included).
* `Math.sin(2 * Math.PI * x)` is modelled by an abstract parameter
  `sin2pi : ℚ → ℚ`, since the transcendental library function is external to
  the source.
* JS strings are Lean `String`s; where the source splits/trims strings we use
  structurally recursive char-list functions equivalent to the JS built-ins.
* A possibly-`undefined` JS indexing expression `a[i]` is `a[i]?  : Option _`.
-/

/-- JS string fallback `s || d` applied to a possibly-`undefined` string
expression: `undefined` and the empty string are falsy and yield `d`. -/
def jsOr (s : Option String) (d : String) : String :=
  match s with
  | none => d
  | some v => if v = "" then d else v

/-- JS `%` (fmod) for a nonnegative dividend and nonnegative divisor, the only
case the source exercises; `x - y * floor (x / y)` coincides with the JS
truncated remainder there.  (For `y = 0` the source either never reaches the
expression or the result is unused.) -/
def jsMod (x y : ℚ) : ℚ := x - y * ⌊x / y⌋

/-- Explicit model of the ambient `Math.random()` source: a stream of rational
values together with a cursor.  Each call to `next` returns the current value
and advances the cursor. -/
structure RNG where
  stream : ℕ → ℚ
  pos : ℕ

/-- One call of `Math.random()` against the modelled stream. -/
def RNG.next (g : RNG) : ℚ × RNG := (g.stream g.pos, ⟨g.stream, g.pos + 1⟩)

/-- The closed sleep-stage enumeration of the source: the four stages of the
`sleepStages` table plus the implicit `Wake` label used by the generators. -/
def stageEnum : List String := ["Wake", "N1", "N2", "N3", "REM"]

/-- The cycle pattern hard-coded in `generateSleepStageTimeline`
(source lines 366-376). -/
def sleepCyclePattern : List String := ["Wake", "N1", "N2", "N3", "N2", "REM"]

/-- Stage of sample `i` in the timeline of `generateSleepStageTimeline`,
with the cycle pattern and the number of cycles (`4` in the source) abstracted
as parameters: `cycleLength = samples / cycles`,
`cyclePosition = (i % cycleLength) / cycleLength`,
`stageIndex = floor (cyclePosition * pattern.length)`, and the JS fallback
`cyclePattern[stageIndex] || 'N2'`.  (`stageIndex` is never negative since
`i ≥ 0` and `cycleLength ≥ 0`, so `Int.toNat` is faithful.) -/
def timelineStageAt (samples : ℕ) (cyclePattern : List String) (cycles : ℕ)
    (i : ℕ) : String :=
  let cycleLength : ℚ := (samples : ℚ) / (cycles : ℚ)
  let cyclePosition : ℚ := jsMod (i : ℚ) cycleLength / cycleLength
  let stageIndex : ℤ := ⌊cyclePosition * (cyclePattern.length : ℚ)⌋
  jsOr cyclePattern[stageIndex.toNat]? "N2"

/-- The loop body of `generateSleepStageTimeline` with pattern and cycle count
as parameters (the source instantiates them to `sleepCyclePattern` and `4`). -/
def generateTimelineWith (samples : ℕ) (cyclePattern : List String)
    (cycles : ℕ) : List String :=
  (List.range samples).map (timelineStageAt samples cyclePattern cycles)

/-- `generateSleepStageTimeline(samples)` (source lines 366-376): the dense
per-sample stage timeline stored in `this.data.sleepStages`. -/
def generateSleepStageTimeline (samples : ℕ) : List String :=
  generateTimelineWith samples sleepCyclePattern 4

/-- The 8-element stage pattern hard-coded in `generateRealisticChannelData`
(source line 287). -/
def channelCyclePattern : List String :=
  ["Wake", "N1", "N2", "N3", "N2", "REM", "N2", "N3"]

/-- The per-sample stage used inside `generateRealisticChannelData`
(source lines 286-287): `stageIndex = Math.floor(i / (samples / 8))` indexing
`channelCyclePattern`, with the JS fallback `|| 'N2'`. -/
def channelStageAt (samples i : ℕ) : String :=
  let stageIndex : ℤ := ⌊(i : ℚ) / ((samples : ℚ) / 8)⌋
  jsOr channelCyclePattern[stageIndex.toNat]? "N2"

/-- Helper: the fallback form `jsOr p[k]? "N2"` stays inside the stage
enumeration whenever the pattern is drawn from it. -/
theorem jsOr_getElem_mem_stageEnum (p : List String) (k : ℕ)
    (hsub : ∀ s ∈ p, s ∈ stageEnum) : jsOr p[k]? "N2" ∈ stageEnum := by
  unfold jsOr
  rcases h : p[k]? with - | v
  · simp [stageEnum]
  · have hv : v ∈ p := by
      obtain ⟨hlt, rfl⟩ := List.getElem?_eq_some_iff.mp h
      exact List.getElem_mem hlt
    by_cases hve : v = ""
    · simp [hve, stageEnum]
    · simpa [hve] using hsub v hv

/-- C3: for every `totalSamples` the timeline generator returns a list of
length `totalSamples` whose members all belong to the stage enumeration
(thanks to the `|| 'N2'` fallback), for every non-empty cycle pattern drawn
from the enumeration; and the source's `generateSleepStageTimeline` is the
instance at the hard-coded pattern and 4 cycles. -/
theorem timeline_length_and_stage_coverage
    (samples : ℕ) (cyclePattern : List String) (cycles : ℕ)
    (hne : cyclePattern ≠ []) (hsub : ∀ s ∈ cyclePattern, s ∈ stageEnum) :
    (generateTimelineWith samples cyclePattern cycles).length = samples ∧
    (∀ s ∈ generateTimelineWith samples cyclePattern cycles, s ∈ stageEnum) ∧
    generateSleepStageTimeline samples
      = generateTimelineWith samples sleepCyclePattern 4 := by
  refine ⟨?_, ?_, rfl⟩
  · simp [generateTimelineWith]
  · intro s hs
    simp only [generateTimelineWith, List.mem_map] at hs
    obtain ⟨i, -, rfl⟩ := hs
    exact jsOr_getElem_mem_stageEnum cyclePattern _ hsub

/-- Witness for `timeline_length_and_stage_coverage` at the source's own
pattern and cycle count, `totalSamples = 12`. -/
theorem timeline_length_and_stage_coverage_witness :
    (generateTimelineWith 12 sleepCyclePattern 4).length = 12 ∧
    (∀ s ∈ generateTimelineWith 12 sleepCyclePattern 4, s ∈ stageEnum) ∧
    generateSleepStageTimeline 12
      = generateTimelineWith 12 sleepCyclePattern 4 :=
  timeline_length_and_stage_coverage 12 sleepCyclePattern 4 (by decide)
    (by decide)

/-- C8: in the channel-data stage computation with `samples = 80` (so eight
segments of 10 samples over the 8-element pattern), sample 0 resolves to
`Wake` and sample 79 resolves to `N3`, and the spec's index formula
`floor(((79 % (80/8)) / (80/8)) * 8) = 7` selects the same last pattern
element `N3`. -/
theorem concrete_scenario_A :
    channelStageAt 80 0 = "Wake" ∧ channelStageAt 80 79 = "N3" ∧
    ⌊jsMod (79 : ℚ) ((80 : ℚ) / 8) / ((80 : ℚ) / 8) * 8⌋ = 7 ∧
    jsOr channelCyclePattern[(7 : ℕ)]? "N2" = "N3" := by
  have h80 : ((80 : ℚ) / 8) = 10 := by norm_num
  have h79 : ⌊(79 : ℚ) / 10⌋ = 7 := by
    rw [Int.floor_eq_iff]
    constructor <;> norm_num
  have hmod : jsMod (79 : ℚ) 10 = 9 := by
    simp only [jsMod, h79]
    norm_num
  refine ⟨?_, ?_, ?_, by simp [jsOr, channelCyclePattern]⟩
  · have : ⌊(0 : ℚ) / ((80 : ℚ) / 8)⌋ = 0 := by norm_num
    simp [channelStageAt, this, jsOr, channelCyclePattern]
  · have : ⌊(79 : ℚ) / ((80 : ℚ) / 8)⌋ = 7 := by rw [h80, h79]
    simp [channelStageAt, this, jsOr, channelCyclePattern]
  · rw [h80, hmod]
    rw [show (9 : ℚ) / 10 * 8 = 36 / 5 by norm_num]
    rw [Int.floor_eq_iff]
    constructor <;> norm_num

/-- The region enumeration used by the source's brain-region table plus the
`central` default of `getChannelRegion`. -/
def regionEnum : List String :=
  ["frontal", "temporal", "parietal", "occipital", "central"]

/-- The stage `switch` of `generateStageSpecificSignal` (source lines
306-332): a per-stage sum of sinusoids, where `sin2pi x` stands for
`Math.sin(2 * Math.PI * x)`.  The `N2` case draws one random value and adds a
large K-complex-like transient when it is below `0.001`.  A stage label
outside the enumeration leaves the accumulator at `0` (the `switch` has no
default case) and consumes no random value. -/
def stageSwitchSignal (sin2pi : ℚ → ℚ) (t : ℚ) (stage : String)
    (g : RNG) : ℚ × RNG :=
  if stage = "Wake" then (sin2pi (10 * t) * 15 + sin2pi (20 * t) * 20, g)
  else if stage = "N1" then (sin2pi (6 * t) * 25 + sin2pi (9 * t) * 10, g)
  else if stage = "N2" then
    let base := sin2pi (2 * t) * 30 + sin2pi (12 * t) * 15
    let (r, g1) := g.next
    if r < 1 / 1000 then (base + sin2pi (1 * t) * 80, g1) else (base, g1)
  else if stage = "N3" then (sin2pi (1 * t) * 50 + sin2pi (2 * t) * 30, g)
  else if stage = "REM" then
    (sin2pi (15 * t) * 12 + sin2pi (25 * t) * 8 + sin2pi (6 * t) * 10, g)
  else (0, g)

/-- `generateStageSpecificSignal(t, stage, regionType)` (source lines
303-345): the stage `switch` followed by the region `switch` (`frontal`
scales by 1.2; `occipital` scales by 1.5 only while the stage is `Wake`;
every other region label leaves the signal unchanged). -/
def generateStageSpecificSignal (sin2pi : ℚ → ℚ) (t : ℚ)
    (stage regionType : String) (g : RNG) : ℚ × RNG :=
  let (signal, g1) := stageSwitchSignal sin2pi t stage g
  let signal2 :=
    if regionType = "frontal" then signal * (12 / 10)
    else if regionType = "occipital" then
      (if stage = "Wake" then signal * (15 / 10) else signal)
    else signal
  (signal2, g1)

/-- Counterexample to C7: the synthesizer does not fail on labels outside the
closed enumerations — it returns a value.  With an out-of-enumeration stage it
returns `0` (the `switch` has no default case), and with an out-of-enumeration
region it returns the stage signal unmodulated (here `35` for `Wake` under the
constant-one sine model). -/
theorem invalid_label_counterexample :
    (generateStageSpecificSignal (fun x => x) 1 "FOO" "BAR"
        ⟨fun _ => 0, 0⟩).1 = 0 ∧
    (generateStageSpecificSignal (fun _ => 1) 1 "Wake" "ZZZ"
        ⟨fun _ => 0, 0⟩).1 = 35 := by
  constructor
  · simp [generateStageSpecificSignal, stageSwitchSignal]
  · simp [generateStageSpecificSignal, stageSwitchSignal]
    norm_num

/-- C7 amended: the synthesizer never fails.  A stage label outside the stage
enumeration yields the signal `0` with the random cursor untouched (whatever
the region), and a region label outside the region enumeration applies no
region modulation at all (the result is exactly the stage `switch` result). -/
theorem invalid_label_amended :
    (∀ (sin2pi : ℚ → ℚ) (t : ℚ) (stage regionType : String) (g : RNG),
      stage ∉ stageEnum →
      generateStageSpecificSignal sin2pi t stage regionType g = (0, g)) ∧
    (∀ (sin2pi : ℚ → ℚ) (t : ℚ) (stage regionType : String) (g : RNG),
      regionType ∉ regionEnum →
      generateStageSpecificSignal sin2pi t stage regionType g
        = stageSwitchSignal sin2pi t stage g) := by
  constructor
  · intro sin2pi t stage regionType g hstage
    simp only [stageEnum, List.mem_cons, List.not_mem_nil, or_false,
      not_or] at hstage
    obtain ⟨h1, h2, h3, h4, h5⟩ := hstage
    simp [generateStageSpecificSignal, stageSwitchSignal, h1, h2, h3, h4, h5]
  · intro sin2pi t stage regionType g hregion
    simp only [regionEnum, List.mem_cons, List.not_mem_nil, or_false,
      not_or] at hregion
    obtain ⟨h1, -, -, h4, -⟩ := hregion
    simp [generateStageSpecificSignal, h1, h4]

/-- Witness for `invalid_label_amended` at the concrete out-of-enumeration
labels `FOO` and `BAR`. -/
theorem invalid_label_amended_witness :
    generateStageSpecificSignal (fun x => x + 1) 2 "FOO" "frontal"
        ⟨fun _ => 0, 3⟩ = (0, ⟨fun _ => 0, 3⟩) ∧
    generateStageSpecificSignal (fun x => x + 1) 2 "N3" "BAR"
        ⟨fun _ => 0, 3⟩
      = stageSwitchSignal (fun x => x + 1) 2 "N3" ⟨fun _ => 0, 3⟩ :=
  ⟨invalid_label_amended.1 (fun x => x + 1) 2 "FOO" "frontal"
      ⟨fun _ => 0, 3⟩ (by decide),
   invalid_label_amended.2 (fun x => x + 1) 2 "N3" "BAR"
      ⟨fun _ => 0, 3⟩ (by decide)⟩

/-- Structurally recursive model of JS `String.prototype.split` with a
one-character separator: `split` of the empty string is `[""]`, separators
delimit (possibly empty) fields. -/
def splitOnChar (c : Char) : List Char → List (List Char)
  | [] => [[]]
  | x :: xs =>
    let rest := splitOnChar c xs
    if x = c then [] :: rest
    else
      match rest with
      | [] => [[x]]
      | r :: rs => (x :: r) :: rs

/-- Model of JS `String.prototype.trim`: drop whitespace from both ends. -/
def trimChars (s : List Char) : List Char :=
  ((s.dropWhile Char.isWhitespace).reverse.dropWhile Char.isWhitespace).reverse

/-- Decimal digit value of a character, if it is a digit. -/
def digitVal (c : Char) : Option ℕ :=
  if '0' ≤ c ∧ c ≤ '9' then some (c.toNat - '0'.toNat) else none

/-- Longest digit run at the head of a character list, and the remainder. -/
def takeDigits : List Char → List ℕ × List Char
  | [] => ([], [])
  | c :: cs =>
    match digitVal c with
    | some d =>
      let (ds, rest) := takeDigits cs
      (d :: ds, rest)
    | none => ([], c :: cs)

/-- Value of a digit run read as an integer part. -/
def natOfDigits (ds : List ℕ) : ℕ := ds.foldl (fun a d => a * 10 + d) 0

/-- Value of a digit run read as a fractional part (after the point). -/
def fracOfDigits (ds : List ℕ) : ℚ :=
  ds.foldr (fun d acc => ((d : ℚ) + acc) / 10) 0

/-- Model of the JS built-in `parseFloat` restricted to the plain decimal
literals that occur in the CSV payloads the source ingests: optional leading
whitespace, optional sign, digits with an optional fractional part, trailing
garbage ignored; `none` models `NaN` (no digits at all).  Exponent notation is
not modelled; no claim depends on it. -/
def jsParseFloat (s : List Char) : Option ℚ :=
  let s1 := s.dropWhile Char.isWhitespace
  let signAndRest : ℚ × List Char :=
    match s1 with
    | '-' :: rest => (-1, rest)
    | '+' :: rest => (1, rest)
    | _ => (1, s1)
  let (ip, s3) := takeDigits signAndRest.2
  let fp : List ℕ :=
    match s3 with
    | '.' :: rest => (takeDigits rest).1
    | _ => []
  if ip.isEmpty ∧ fp.isEmpty then none
  else some (signAndRest.1 * ((natOfDigits ip : ℚ) + fracOfDigits fp))

/-- The source's cell conversion `parseFloat(values[j]) || 0`: an unparseable
cell (JS `NaN`, falsy) degrades to `0`; a parsed `0` is also falsy and yields
the same `0`. -/
def parseCellValue (s : List Char) : ℚ :=
  match jsParseFloat s with
  | none => 0
  | some q => q

/-- The `{time, channels, samples}` record built by `parseCSVData`. -/
structure CSVData where
  time : List ℚ
  channels : List (String × List ℚ)
  samples : ℕ

/-- `data.channels[name].push(v)` on the association-list model of the JS
channels object: append `v` to the series of the (already initialised) first
entry named `name`.  (In `parseCSVData` the name is always one of the
initialised header names, so the no-match case is unreachable.) -/
def channelsPush (cs : List (String × List ℚ)) (name : String) (v : ℚ) :
    List (String × List ℚ) :=
  match cs with
  | [] => []
  | (n, vs) :: rest =>
    if n = name then (n, vs ++ [v]) :: rest
    else (n, vs) :: channelsPush rest name v

/-- One iteration of the data-row loop of `parseCSVData` (source lines
220-233) acting on the accumulated `(time, channels)` state: split line `i`
on commas; if it has at least 2 fields, push the synthetic timestamp
`i * 0.004` (250 Hz) and, for each column `j` with
`1 ≤ j < min(values.length, headers.length)`, push the parsed cell into the
channel named by header `j`; otherwise leave the state untouched. -/
def parseRowStep (lines headers : List (List Char))
    (acc : List ℚ × List (String × List ℚ)) (i : ℕ) :
    List ℚ × List (String × List ℚ) :=
  let values := splitOnChar ',' (lines[i]?.getD [])
  if 2 ≤ values.length then
    let timeValue : ℚ := (i : ℚ) * (4 / 1000)
    let chans := ((List.range (min values.length headers.length)).drop 1).foldl
      (fun cs j =>
        let channelName := String.mk (trimChars (headers[j]?.getD []))
        let value := parseCellValue (values[j]?.getD [])
        channelsPush cs channelName value) acc.2
    (acc.1 ++ [timeValue], chans)
  else acc

/-- `parseCSVData(csvText)` (source lines 203-237): trim, split into lines,
read headers from line 0 (first column ignored), initialise one empty series
per remaining header, then run the data-row loop over line indices
`1 ≤ i < min(lines.length, 5000)`; `samples` is the length of the time
array. -/
def parseCSVData (csvText : String) : CSVData :=
  let lines := splitOnChar '\x0a' (trimChars csvText.data)
  let headers := splitOnChar ',' (lines[0]?.getD [])
  let initChannels :=
    (headers.drop 1).map fun h => (String.mk (trimChars h), ([] : List ℚ))
  let rowIdxs := (List.range (min lines.length 5000)).drop 1
  let st := rowIdxs.foldl (parseRowStep lines headers) ([], initChannels)
  { time := st.1, channels := st.2, samples := st.1.length }

/-- Association-list lookup for a channel series, modelling the JS property
read `channels[name]` (`none` models `undefined`). -/
def lookupChannel (cs : List (String × List ℚ)) (name : String) :
    Option (List ℚ) :=
  match cs with
  | [] => none
  | (n, vs) :: rest => if n = name then some vs else lookupChannel rest name

/-- Counterexample to C5: on the empty input the parser does not fail with an
`EmptyDataset` error — it returns the ordinary record with `samples = 0` (the
same shape the claim reserves for the header-only case). -/
theorem empty_dataset_counterexample :
    parseCSVData "" = { time := [], channels := [], samples := 0 } := by
  rfl

/-- C5 amended: every input with at most one line after trimming — which
covers both the empty input and a header row with no data rows — yields the
record with `samples = 0` and an empty time array; the parser has no error
path at all. -/
theorem empty_input_amended (s : String)
    (h : (splitOnChar '\x0a' (trimChars s.data)).length ≤ 1) :
    (parseCSVData s).samples = 0 ∧ (parseCSVData s).time = [] := by
  have hmin : min (splitOnChar '\x0a' (trimChars s.data)).length 5000 ≤ 1 :=
    le_trans (min_le_left _ _) h
  have hrow : ((List.range
      (min (splitOnChar '\x0a' (trimChars s.data)).length 5000)).drop 1)
      = [] := by
    apply List.drop_eq_nil_of_le
    simpa using hmin
  simp only [parseCSVData]
  rw [hrow]
  exact ⟨rfl, rfl⟩

/-- Witness for `empty_input_amended` at the empty input and at a header-only
input. -/
theorem empty_input_amended_witness :
    ((parseCSVData "").samples = 0 ∧ (parseCSVData "").time = []) ∧
    ((parseCSVData "time,C3,C4").samples = 0 ∧
      (parseCSVData "time,C3,C4").time = []) :=
  ⟨empty_input_amended "" (by decide),
   empty_input_amended "time,C3,C4" (by decide)⟩

/-- Counterexample to C6: the input has a 3-column header `t,a,b` and one
data row `5,7` with only 2 fields.  The claim says such a row contributes
nothing (skipped entirely), which would leave `samples = 0` and every series
empty; in fact the row is partially ingested — a timestamp is pushed
(`samples = 1`) and channel `a` receives the value `7` — only the missing
trailing channel `b` stays empty. -/
theorem short_row_counterexample :
    (parseCSVData "t,a,b\x0a5,7").samples = 1 ∧
    lookupChannel (parseCSVData "t,a,b\x0a5,7").channels "a" = some [7] ∧
    lookupChannel (parseCSVData "t,a,b\x0a5,7").channels "b" = some [] := by
  refine ⟨rfl, ?_, rfl⟩
  have h7 : parseCellValue ['7'] = 7 := by
    have h : parseCellValue ['7'] = 1 * (((7 : ℕ) : ℚ) + 0) := rfl
    rw [h]
    push_cast
    ring
  calc lookupChannel (parseCSVData "t,a,b\x0a5,7").channels "a"
      = some [parseCellValue ['7']] := rfl
    _ = some [7] := by rw [h7]

/-- C6 amended: a data row with fewer than 2 comma-separated fields is
skipped entirely (the accumulated state is unchanged), but a row with at
least 2 fields — even when that is fewer than the header count — is partially
ingested: its synthetic timestamp `i * 0.004` is appended (so it does count
as a sample), and only the columns it actually has are pushed (missing
trailing channels receive nothing; no padding occurs). -/
theorem short_row_amended :
    (∀ (lines headers : List (List Char))
       (acc : List ℚ × List (String × List ℚ)) (i : ℕ),
      (splitOnChar ',' (lines[i]?.getD [])).length < 2 →
      parseRowStep lines headers acc i = acc) ∧
    (∀ (lines headers : List (List Char))
       (acc : List ℚ × List (String × List ℚ)) (i : ℕ),
      2 ≤ (splitOnChar ',' (lines[i]?.getD [])).length →
      (parseRowStep lines headers acc i).1
        = acc.1 ++ [(i : ℚ) * (4 / 1000)]) := by
  constructor
  · intro lines headers acc i h
    simp only [parseRowStep]
    rw [if_neg (by omega)]
  · intro lines headers acc i h
    simp only [parseRowStep]
    rw [if_pos h]

/-- Witness for `short_row_amended`: a 1-field row leaves the state unchanged
and a 2-field row appends its timestamp. -/
theorem short_row_amended_witness :
    parseRowStep [[], ['x']] [['t'], ['a']] ([], []) 1 = ([], []) ∧
    (parseRowStep [[], ['5', ',', '7']] [['t'], ['a'], ['b']]
        ([], [("a", []), ("b", [])]) 1).1 = [] ++ [(1 : ℚ) * (4 / 1000)] :=
  ⟨short_row_amended.1 [[], ['x']] [['t'], ['a']] ([], []) 1 (by decide),
   short_row_amended.2 [[], ['5', ',', '7']] [['t'], ['a'], ['b']]
      ([], [("a", []), ("b", [])]) 1 (by decide)⟩

/-- The brain-region table of the constructor (source lines 44-49). -/
def brainRegions : List (String × List String) :=
  [("frontal", ["Fp1", "Fp2", "F3", "F4", "F7", "F8"]),
   ("temporal", ["T3", "T4", "T5", "T6"]),
   ("parietal", ["P3", "P4", "Pz"]),
   ("occipital", ["O1", "O2"])]

/-- `getChannelRegion(channel)` (source lines 347-352): first region whose
channel list contains the channel, defaulting to `central`. -/
def getChannelRegion (channel : String) : String :=
  match brainRegions.find? (fun rc => rc.2.contains channel) with
  | some rc => rc.1
  | none => "central"

/-- The per-channel amplitude multiplier table (source lines 354-364). -/
def channelMultipliers : List (String × ℚ) :=
  [("Fp1", 8 / 10), ("Fp2", 8 / 10),
   ("F3", 1), ("F4", 1), ("F7", 9 / 10), ("F8", 9 / 10),
   ("C3", 12 / 10), ("C4", 12 / 10),
   ("P3", 11 / 10), ("P4", 11 / 10),
   ("O1", 13 / 10), ("O2", 13 / 10),
   ("T3", 9 / 10), ("T4", 9 / 10)]

/-- `getChannelAmplitudeMultiplier(channel)` (source lines 354-364), with the
`|| 1.0` fallback for channels outside the table. -/
def getChannelAmplitudeMultiplier (channel : String) : ℚ :=
  match channelMultipliers.lookup channel with
  | some m => m
  | none => 1

/-- `generateRealisticChannelData(samples, channel)` (source lines 280-301):
for each sample index `i`, the stage comes from `channelStageAt`, the base
signal from `generateStageSpecificSignal` at `t = i / 10`, a uniform noise
term `(random - 0.5) * 5` is added, and the result is scaled by the channel
multiplier.  Random values are consumed in source order (stage transient
first when the stage is `N2`, then the noise draw). -/
def generateRealisticChannelData (sin2pi : ℚ → ℚ) (samples : ℕ)
    (channel : String) (g : RNG) : List ℚ × RNG :=
  let regionType := getChannelRegion channel
  (List.range samples).foldl
    (fun (acc : List ℚ × RNG) (i : ℕ) =>
      let t : ℚ := (i : ℚ) / 10
      let sleepStage := channelStageAt samples i
      let sg := generateStageSpecificSignal sin2pi t sleepStage regionType
        acc.2
      let rg := sg.2.next
      let signal := (sg.1 + (rg.1 - 1 / 2) * 5)
        * getChannelAmplitudeMultiplier channel
      (acc.1 ++ [signal], rg.2))
    ([], g)

/-- The 10-20 channel list of the constructor (source line 21). -/
def channelList : List String :=
  ["Fp1", "Fp2", "F3", "F4", "F7", "F8", "T3", "T4",
   "C3", "C4", "P3", "P4", "O1", "O2"]

/-- The `{time, channels, sleepStages}` record built by the generators and
scanned by the event detector (`this.data`). -/
structure Dataset where
  time : List ℚ
  channels : List (String × List ℚ)
  sleepStages : List String

/-- `generateAdvancedEEGData()` (source lines 239-278) with the sample count
as a parameter (the source instantiates `samples = 3600 * 10`): the time
array is `i / 10` (10 Hz display rate), each channel's series comes from
`generateRealisticChannelData`, and the stage timeline from
`generateSleepStageTimeline`. -/
def generateAdvancedEEGData (sin2pi : ℚ → ℚ) (samples : ℕ) (g : RNG) :
    Dataset × RNG :=
  let time := (List.range samples).map (fun (i : ℕ) => (i : ℚ) / 10)
  let cg := channelList.foldl
    (fun (acc : List (String × List ℚ) × RNG) channel =>
      let dg := generateRealisticChannelData sin2pi samples channel acc.2
      (acc.1 ++ [(channel, dg.1)], dg.2))
    ([], g)
  ({ time := time, channels := cg.1,
     sleepStages := generateSleepStageTimeline samples }, cg.2)

/-- Helper: a data row with fewer than 2 fields leaves the parse state
unchanged. -/
theorem parseRowStep_skip (lines headers : List (List Char))
    (acc : List ℚ × List (String × List ℚ)) (i : ℕ)
    (h : ¬ 2 ≤ (splitOnChar ',' (lines[i]?.getD [])).length) :
    parseRowStep lines headers acc i = acc := by
  simp only [parseRowStep]
  rw [if_neg h]

/-- Helper: a data row with at least 2 fields appends exactly its synthetic
timestamp to the time component. -/
theorem parseRowStep_accept_fst (lines headers : List (List Char))
    (acc : List ℚ × List (String × List ℚ)) (i : ℕ)
    (h : 2 ≤ (splitOnChar ',' (lines[i]?.getD [])).length) :
    (parseRowStep lines headers acc i).1 = acc.1 ++ [(i : ℚ) * (4 / 1000)] := by
  simp only [parseRowStep]
  rw [if_pos h]

/-- The data-row indices actually ingested by `parseCSVData`: indices
`1 ≤ i < min(lines.length, 5000)` whose line splits into at least 2 fields. -/
def acceptedRowIdxs (s : String) : List ℕ :=
  let lines := splitOnChar '\x0a' (trimChars s.data)
  ((List.range (min lines.length 5000)).drop 1).filter
    (fun i => decide (2 ≤ (splitOnChar ',' (lines[i]?.getD [])).length))

/-- Helper: the time component of the row fold is the accumulated prefix
followed by one timestamp `i * 0.004` per accepted row index, in order. -/
theorem foldl_parseRowStep_time (lines headers : List (List Char)) :
    ∀ (idxs : List ℕ) (acc : List ℚ × List (String × List ℚ)),
      (idxs.foldl (parseRowStep lines headers) acc).1
        = acc.1 ++ (idxs.filter
            (fun i => decide
              (2 ≤ (splitOnChar ',' (lines[i]?.getD [])).length))).map
            (fun (i : ℕ) => (i : ℚ) * (4 / 1000)) := by
  intro idxs
  induction idxs with
  | nil => intro acc; simp
  | cons i rest ih =>
    intro acc
    by_cases h : 2 ≤ (splitOnChar ',' (lines[i]?.getD [])).length
    · simp only [List.foldl_cons, List.filter_cons, decide_eq_true h,
        if_true, List.map_cons]
      rw [ih, parseRowStep_accept_fst lines headers acc i h,
        List.append_assoc]
      rfl
    · simp only [List.foldl_cons, List.filter_cons,
        decide_eq_false h, Bool.false_eq_true, if_false]
      rw [parseRowStep_skip lines headers acc i h, ih]

/-- Helper: the parser's time array is exactly the accepted row indices
mapped through `i * 0.004`. -/
theorem parseCSVData_time_eq (s : String) :
    (parseCSVData s).time
      = (acceptedRowIdxs s).map (fun (i : ℕ) => (i : ℚ) * (4 / 1000)) := by
  simp only [parseCSVData, acceptedRowIdxs]
  rw [foldl_parseRowStep_time]
  simp

/-- Helper: accepted row indices are strictly sorted. -/
theorem acceptedRowIdxs_pairwise (s : String) :
    (acceptedRowIdxs s).Pairwise (· < ·) := by
  simp only [acceptedRowIdxs]
  exact List.Pairwise.sublist
    ((List.filter_sublist _).trans (List.drop_sublist _ _))
    (List.pairwise_lt_range _)

/-- Counterexample to C9: the CSV input `t,a \n 1,2 \n x \n 3,4` has a
malformed middle row, which is skipped; the surviving timestamps are
`1 * 0.004` and `3 * 0.004`, so the two consecutive time entries differ by
`0.008`, not the fixed step `1 / 250 = 0.004`. -/
theorem fixed_step_counterexample :
    ¬ List.Chain' (fun a b => b - a = (4 : ℚ) / 1000)
        (parseCSVData "t,a\x0a1,2\x0ax\x0a3,4").time := by
  have hacc : acceptedRowIdxs "t,a\x0a1,2\x0ax\x0a3,4" = [1, 3] := rfl
  rw [parseCSVData_time_eq, hacc]
  simp only [List.map_cons, List.map_nil, List.chain'_cons,
    List.chain'_singleton, and_true]
  push_cast
  norm_num

/-- C9 amended: both time sequences are strictly increasing, but the step is
fixed only for the synthesiser: `generateAdvancedEEGData` spaces timestamps
by exactly `1 / 10` second (its 10 Hz display rate — not the configured
250 Hz `samplingRate`), while `parseCSVData` spaces consecutive timestamps by
a positive multiple of `1 / 250` second, the multiple exceeding one exactly
when malformed rows in between were skipped. -/
theorem time_step_amended :
    (∀ (sin2pi : ℚ → ℚ) (samples : ℕ) (g : RNG),
      List.Chain' (fun a b => a < b ∧ b - a = 1 / 10)
        (generateAdvancedEEGData sin2pi samples g).1.time) ∧
    (∀ s : String,
      List.Chain' (fun a b => a < b ∧ ∃ k : ℕ, 0 < k ∧
          b - a = (k : ℚ) * (4 / 1000))
        (parseCSVData s).time) := by
  constructor
  · intro sin2pi samples g
    have ht : (generateAdvancedEEGData sin2pi samples g).1.time
        = (List.range samples).map (fun (i : ℕ) => (i : ℚ) / 10) := rfl
    rw [ht, List.chain'_map]
    cases samples with
    | zero => simp
    | succ n =>
      rw [List.chain'_range_succ]
      intro m hm
      constructor
      · push_cast
        linarith
      · push_cast
        ring
  · intro s
    rw [parseCSVData_time_eq, List.chain'_map]
    refine List.Chain'.imp ?_ (acceptedRowIdxs_pairwise s).chain'
    intro a b hab
    constructor
    · have : (a : ℚ) < b := by exact_mod_cast hab
      have h4 : (0 : ℚ) < 4 / 1000 := by norm_num
      exact mul_lt_mul_of_pos_right this h4
    · refine ⟨b - a, by omega, ?_⟩
      have hcast : ((b - a : ℕ) : ℚ) = (b : ℚ) - a := by
        push_cast [Nat.cast_sub (le_of_lt hab)]
        ring
      rw [hcast]
      ring

/-- `calculateVariance(data)` (source lines 1061-1064): population variance
via two reduces.  (The source only applies it to full 50-sample windows; on
an empty list ℚ's division by zero yields 0 where JS yields NaN, a case the
detector never reaches.) -/
def calculateVariance (data : List ℚ) : ℚ :=
  let mean := data.foldl (fun a b => a + b) 0 / (data.length : ℚ)
  data.foldl (fun a b => a + (b - mean) ^ 2) 0 / (data.length : ℚ)

/-- JS `Math.max(...l)` for the non-empty lists the detector feeds it. -/
def jsMaxList (l : List ℚ) : ℚ :=
  match l with
  | [] => 0
  | x :: xs => xs.foldl max x

/-- JS `Math.min(...l)` for the non-empty lists the detector feeds it. -/
def jsMinList (l : List ℚ) : ℚ :=
  match l with
  | [] => 0
  | x :: xs => xs.foldl min x

/-- `detectSpindle(window)` (source lines 1038-1043): variance and mean
absolute amplitude thresholds, then the stochastic gate `Math.random() > 0.7`
— consumed only when both thresholds pass (JS `&&` short-circuit). -/
def detectSpindle (w : List ℚ) (g : RNG) : Bool × RNG :=
  let variance := calculateVariance w
  let meanAmplitude := w.foldl (fun a b => a + |b|) 0 / (w.length : ℚ)
  if 15 < variance ∧ 8 < meanAmplitude then
    let rg := g.next
    (decide (7 / 10 < rg.1), rg.2)
  else (false, g)

/-- `detectKComplex(window)` (source lines 1045-1051): peak-to-peak amplitude
above 50 and minimum below −25, then the gate `Math.random() > 0.8`. -/
def detectKComplex (w : List ℚ) (g : RNG) : Bool × RNG :=
  let minValue := jsMinList w
  let maxValue := jsMaxList w
  let amplitude := maxValue - minValue
  if 50 < amplitude ∧ minValue < -25 then
    let rg := g.next
    (decide (8 / 10 < rg.1), rg.2)
  else (false, g)

/-- The high-frequency-activity count of `detectREMBurst`: positions `i > 0`
whose sample-to-sample delta exceeds 5 in absolute value. -/
def highFreqCount (w : List ℚ) : ℕ :=
  ((List.range w.length).filter (fun i =>
    decide (0 < i) && decide (5 < |(w[i]?.getD 0) - (w[i - 1]?.getD 0)|))).length

/-- `detectREMBurst(window)` (source lines 1053-1059): the delta count must
exceed 30% of the window length, then the gate `Math.random() > 0.6`. -/
def detectREMBurst (w : List ℚ) (g : RNG) : Bool × RNG :=
  let highFreqActivity := highFreqCount w
  if (w.length : ℚ) * (3 / 10) < (highFreqActivity : ℚ) then
    let rg := g.next
    (decide (6 / 10 < rg.1), rg.2)
  else (false, g)

/-- A detected event as pushed by `runSleepEventDetection`: the JS object
carries `time/type/description/confidence` always and one of
`frequency/amplitude/duration` depending on the type (`none` models an
absent field; `time` is `Option` because the source reads
`this.data.time[i]`, which can be `undefined` on a short time array). -/
structure Event where
  time : Option ℚ
  type : String
  description : String
  confidence : ℚ
  frequency : Option ℚ
  amplitude : Option ℚ
  duration : Option ℚ

/-- The spindle branch of the window scan (source lines 1000-1010): gate on
the window's first-sample stage being `N2`, run `detectSpindle`, and on
acceptance emit one `sleep_spindle` event at the window's start time, drawing
confidence, frequency and duration from the random stream in field order. -/
def spindleEvents (timeVal : Option ℚ) (stage : Option String) (w : List ℚ)
    (g : RNG) : List Event × RNG :=
  let bg := if stage = some "N2" then detectSpindle w g else (false, g)
  if bg.1 then
    let r1 := bg.2.next
    let r2 := r1.2.next
    let r3 := r2.2.next
    ([{ time := timeVal, type := "sleep_spindle",
        description := "Sleep spindle detected",
        confidence := 85 / 100 + r1.1 * (1 / 10),
        frequency := some (12 + r2.1 * 4), amplitude := none,
        duration := some (1 / 2 + r3.1 * (15 / 10)) }], r3.2)
  else ([], bg.2)

/-- The K-complex branch of the window scan (source lines 1012-1021): gate on
stage `N2`, run `detectKComplex`, and on acceptance emit one `k_complex`
event whose amplitude is the window's peak absolute value. -/
def kComplexEvents (timeVal : Option ℚ) (stage : Option String) (w : List ℚ)
    (g : RNG) : List Event × RNG :=
  let bg := if stage = some "N2" then detectKComplex w g else (false, g)
  if bg.1 then
    let r1 := bg.2.next
    ([{ time := timeVal, type := "k_complex",
        description := "K-complex detected",
        confidence := 80 / 100 + r1.1 * (15 / 100),
        frequency := none,
        amplitude := some (jsMaxList (w.map (fun x => |x|))),
        duration := none }], r1.2)
  else ([], bg.2)

/-- The REM-burst branch of the window scan (source lines 1023-1032): gate on
stage `REM`, run `detectREMBurst`, and on acceptance emit one `rem_burst`
event. -/
def remBurstEvents (timeVal : Option ℚ) (stage : Option String) (w : List ℚ)
    (g : RNG) : List Event × RNG :=
  let bg := if stage = some "REM" then detectREMBurst w g else (false, g)
  if bg.1 then
    let r1 := bg.2.next
    let r2 := r1.2.next
    ([{ time := timeVal, type := "rem_burst",
        description := "REM burst episode",
        confidence := 75 / 100 + r1.1 * (2 / 10),
        frequency := none, amplitude := none,
        duration := some (2 + r2.1 * 5) }], r2.2)
  else ([], bg.2)

/-- All events of one window in source push order: spindle, K-complex,
REM burst. -/
def windowEvents (timeVal : Option ℚ) (stage : Option String) (w : List ℚ)
    (g : RNG) : List Event × RNG :=
  let e1 := spindleEvents timeVal stage w g
  let e2 := kComplexEvents timeVal stage w e1.2
  let e3 := remBurstEvents timeVal stage w e2.2
  (e1.1 ++ e2.1 ++ e3.1, e3.2)

/-- The detection window size (source line 993). -/
def windowSize : ℕ := 50

/-- The window start indices visited by the detection loop
`for (i = 0; i < channelData.length - windowSize; i += windowSize)`:
multiples of `windowSize` with `i + windowSize < len` (in JS the bound is
`i < len - windowSize` over real subtraction, which is the same condition),
enumerated in increasing order. -/
def windowStarts (len : ℕ) : List ℕ :=
  (List.range len).filter
    (fun i => decide (i % windowSize = 0) && decide (i + windowSize < len))

/-- One iteration of the detection loop: scan the window starting at `i`
(`channelData.slice(i, i + windowSize)`) with the time value and stage label
read at index `i`, appending the window's events. -/
def windowStep (ds : Dataset) (channelData : List ℚ)
    (acc : List Event × RNG) (i : ℕ) : List Event × RNG :=
  let eg := windowEvents ds.time[i]? ds.sleepStages[i]?
    ((channelData.drop i).take windowSize) acc.2
  (acc.1 ++ eg.1, eg.2)

/-- `runSleepEventDetection()` (source lines 987-1036): if channel `C3` is
absent from the dataset (a falsy `channels['C3']`) return the empty event
list; otherwise scan every window start in order, threading the random
stream. -/
def runSleepEventDetection (ds : Dataset) (g : RNG) : List Event :=
  match lookupChannel ds.channels "C3" with
  | none => []
  | some channelData =>
    ((windowStarts channelData.length).foldl (windowStep ds channelData)
      ([], g)).1

/-- Helper: any event emitted by the spindle branch carries the window's
start time, has type `sleep_spindle`, and was gated on stage `N2`. -/
theorem mem_spindleEvents (timeVal : Option ℚ) (stage : Option String)
    (w : List ℚ) (g : RNG) (e : Event)
    (he : e ∈ (spindleEvents timeVal stage w g).1) :
    e.time = timeVal ∧ e.type = "sleep_spindle" ∧ stage = some "N2" := by
  by_cases hstage : stage = some "N2"
  · simp only [spindleEvents, hstage, if_true] at he
    split at he
    · simp only [List.mem_singleton] at he
      subst he
      exact ⟨rfl, rfl, hstage⟩
    · simp at he
  · simp only [spindleEvents, hstage, if_false] at he
    simp at he

/-- Helper: any event emitted by the K-complex branch carries the window's
start time, has type `k_complex`, and was gated on stage `N2`. -/
theorem mem_kComplexEvents (timeVal : Option ℚ) (stage : Option String)
    (w : List ℚ) (g : RNG) (e : Event)
    (he : e ∈ (kComplexEvents timeVal stage w g).1) :
    e.time = timeVal ∧ e.type = "k_complex" ∧ stage = some "N2" := by
  by_cases hstage : stage = some "N2"
  · simp only [kComplexEvents, hstage, if_true] at he
    split at he
    · simp only [List.mem_singleton] at he
      subst he
      exact ⟨rfl, rfl, hstage⟩
    · simp at he
  · simp only [kComplexEvents, hstage, if_false] at he
    simp at he

/-- Helper: any event emitted by the REM-burst branch carries the window's
start time, has type `rem_burst`, and was gated on stage `REM`. -/
theorem mem_remBurstEvents (timeVal : Option ℚ) (stage : Option String)
    (w : List ℚ) (g : RNG) (e : Event)
    (he : e ∈ (remBurstEvents timeVal stage w g).1) :
    e.time = timeVal ∧ e.type = "rem_burst" ∧ stage = some "REM" := by
  by_cases hstage : stage = some "REM"
  · simp only [remBurstEvents, hstage, if_true] at he
    split at he
    · simp only [List.mem_singleton] at he
      subst he
      exact ⟨rfl, rfl, hstage⟩
    · simp at he
  · simp only [remBurstEvents, hstage, if_false] at he
    simp at he

/-- Helper: any event of one scanned window carries the window's start time
and its type matches the stage gate that admitted it. -/
theorem mem_windowEvents (timeVal : Option ℚ) (stage : Option String)
    (w : List ℚ) (g : RNG) (e : Event)
    (he : e ∈ (windowEvents timeVal stage w g).1) :
    e.time = timeVal ∧
    ((e.type = "sleep_spindle" ∨ e.type = "k_complex") →
      stage = some "N2") ∧
    (e.type = "rem_burst" → stage = some "REM") := by
  simp only [windowEvents, List.mem_append] at he
  rcases he with (he | he) | he
  · obtain ⟨ht, hty, hst⟩ := mem_spindleEvents timeVal stage w g e he
    refine ⟨ht, fun _ => hst, fun hr => absurd (hty ▸ hr) (by decide)⟩
  · obtain ⟨ht, hty, hst⟩ := mem_kComplexEvents timeVal stage w _ e he
    refine ⟨ht, fun _ => hst, fun hr => absurd (hty ▸ hr) (by decide)⟩
  · obtain ⟨ht, hty, hst⟩ := mem_remBurstEvents timeVal stage w _ e he
    refine ⟨ht, fun h => ?_, fun _ => hst⟩
    rcases h with h | h <;> exact absurd (hty ▸ h) (by decide)

/-- Helper: every event accumulated by the window-scan fold is either already
in the accumulator or produced by one of the scanned window starts. -/
theorem mem_foldl_windowStep (ds : Dataset) (cd : List ℚ) :
    ∀ (starts : List ℕ) (acc : List Event × RNG) (e : Event),
      e ∈ (starts.foldl (windowStep ds cd) acc).1 →
      e ∈ acc.1 ∨ ∃ i ∈ starts, ∃ g : RNG,
        e ∈ (windowEvents ds.time[i]? ds.sleepStages[i]?
          ((cd.drop i).take windowSize) g).1 := by
  intro starts
  induction starts with
  | nil => intro acc e he; exact Or.inl he
  | cons i rest ih =>
    intro acc e he
    rw [List.foldl_cons] at he
    rcases ih (windowStep ds cd acc i) e he with h | ⟨j, hj, g', hg'⟩
    · simp only [windowStep, List.mem_append] at h
      rcases h with h | h
      · exact Or.inl h
      · exact Or.inr ⟨i, by simp, _, h⟩
    · exact Or.inr ⟨j, by simp [hj], g', hg'⟩

/-- Helper: every event returned by `runSleepEventDetection` originates from
some scanned window start of the `C3` series. -/
theorem mem_runSleepEventDetection (ds : Dataset) (g : RNG) (e : Event)
    (he : e ∈ runSleepEventDetection ds g) :
    ∃ cd, lookupChannel ds.channels "C3" = some cd ∧
      ∃ i ∈ windowStarts cd.length, ∃ g' : RNG,
        e ∈ (windowEvents ds.time[i]? ds.sleepStages[i]?
          ((cd.drop i).take windowSize) g').1 := by
  unfold runSleepEventDetection at he
  rcases hc : lookupChannel ds.channels "C3" with - | cd
  · rw [hc] at he
    simp at he
  · rw [hc] at he
    rcases mem_foldl_windowStep ds cd (windowStarts cd.length) ([], g) e he
      with h | ⟨i, hi, g', hg'⟩
    · simp at h
    · exact ⟨cd, rfl, i, hi, g', hg'⟩

/-- C1: every event the detector returns is attributed to a scanned window
start `i`, its `time` is the dataset's time value at that first sample, and
the stage label at that first sample is `N2` for `sleep_spindle`/`k_complex`
events and `REM` for `rem_burst` events — no such event is emitted for a
window whose first-sample stage is any other label. -/
theorem stage_gating (ds : Dataset) (g : RNG) (e : Event)
    (he : e ∈ runSleepEventDetection ds g) :
    ∃ cd, lookupChannel ds.channels "C3" = some cd ∧
      ∃ i ∈ windowStarts cd.length,
        e.time = ds.time[i]? ∧
        ((e.type = "sleep_spindle" ∨ e.type = "k_complex") →
          ds.sleepStages[i]? = some "N2") ∧
        (e.type = "rem_burst" → ds.sleepStages[i]? = some "REM") := by
  obtain ⟨cd, hcd, i, hi, g', hg'⟩ := mem_runSleepEventDetection ds g e he
  obtain ⟨ht, hn2, hrem⟩ := mem_windowEvents _ _ _ _ _ hg'
  exact ⟨cd, hcd, i, hi, ht, hn2, hrem⟩

/-- C10: the detection loop scans exactly the window starts that are
multiples of `windowSize` with `i + windowSize < len` (strict); consequently
every sample index covered by a scanned window is strictly below `len - 1`
(the last sample is never scanned), when `len` is an exact multiple of
`windowSize` the final complete window start `len - windowSize` is never
scanned, and every emitted event's time is read at one of the scanned
starts. -/
theorem window_scan_bounds :
    (∀ len i, i ∈ windowStarts len ↔
      i % windowSize = 0 ∧ i + windowSize < len) ∧
    (∀ len i j, i ∈ windowStarts len → j < windowSize → i + j + 1 < len) ∧
    (∀ len, windowSize ∣ len → windowSize ≤ len →
      len - windowSize ∉ windowStarts len) ∧
    (∀ (ds : Dataset) (g : RNG) (e : Event),
      e ∈ runSleepEventDetection ds g →
      ∃ cd, lookupChannel ds.channels "C3" = some cd ∧
        ∃ i ∈ windowStarts cd.length, e.time = ds.time[i]?) := by
  refine ⟨?_, ?_, ?_, ?_⟩
  · intro len i
    simp only [windowStarts, List.mem_filter, List.mem_range,
      Bool.and_eq_true, decide_eq_true_eq]
    constructor
    · rintro ⟨-, h1, h2⟩
      exact ⟨h1, h2⟩
    · rintro ⟨h1, h2⟩
      exact ⟨by omega, h1, h2⟩
  · intro len i j hi hj
    simp only [windowStarts, windowSize, List.mem_filter, List.mem_range,
      Bool.and_eq_true, decide_eq_true_eq] at hi
    simp only [windowSize] at hj
    omega
  · intro len hdvd hle hmem
    simp only [windowStarts, windowSize, List.mem_filter, List.mem_range,
      Bool.and_eq_true, decide_eq_true_eq] at hmem
    simp only [windowSize] at hdvd hle
    omega
  · intro ds g e he
    obtain ⟨cd, hcd, i, hi, g', hg'⟩ := mem_runSleepEventDetection ds g e he
    exact ⟨cd, hcd, i, hi, (mem_windowEvents _ _ _ _ _ hg').1⟩

/-- A dataset whose channels do not include `C3`. -/
def dsNoC3 : Dataset :=
  { time := [0, 1 / 10], channels := [("C4", [5, 6])],
    sleepStages := ["N2", "N2"] }

/-- A dataset whose `C3` series is present but empty (zero samples). -/
def dsEmptyC3 : Dataset :=
  { time := [], channels := [("C3", [])], sleepStages := [] }

/-- Counterexample to C4: asked to detect on a dataset with no `C3` channel,
the detector does not fail with an `UnknownChannel` error — it returns the
ordinary empty event sequence, indistinguishable from the empty-dataset
result. -/
theorem unknown_channel_counterexample :
    runSleepEventDetection dsNoC3 ⟨fun _ => 0, 0⟩ = [] := rfl

/-- C4 amended: when the requested channel (`C3`) is absent the detector
returns the empty event sequence (no error is raised — the falsy guard
`!this.data.channels['C3']` returns early), and when the channel is present
but empty (zero samples) it likewise returns the empty event sequence. -/
theorem absent_or_empty_channel_amended :
    (∀ (ds : Dataset) (g : RNG), lookupChannel ds.channels "C3" = none →
      runSleepEventDetection ds g = []) ∧
    (∀ (ds : Dataset) (g : RNG), lookupChannel ds.channels "C3" = some [] →
      runSleepEventDetection ds g = []) := by
  constructor
  · intro ds g h
    unfold runSleepEventDetection
    rw [h]
  · intro ds g h
    unfold runSleepEventDetection
    rw [h]
    rfl

/-- Witness for `absent_or_empty_channel_amended` at the concrete datasets
`dsNoC3` (channel absent) and `dsEmptyC3` (channel empty). -/
theorem absent_or_empty_channel_amended_witness :
    runSleepEventDetection dsNoC3 ⟨fun _ => 1, 0⟩ = [] ∧
    runSleepEventDetection dsEmptyC3 ⟨fun _ => 1, 0⟩ = [] :=
  ⟨absent_or_empty_channel_amended.1 dsNoC3 ⟨fun _ => 1, 0⟩ rfl,
   absent_or_empty_channel_amended.2 dsEmptyC3 ⟨fun _ => 1, 0⟩ rfl⟩

/-- A 50-sample window alternating between +10 and −10: variance 100, mean
absolute amplitude 10, peak-to-peak amplitude 20. -/
def wW : List ℚ :=
  [10, -10, 10, -10, 10, -10, 10, -10, 10, -10,
   10, -10, 10, -10, 10, -10, 10, -10, 10, -10,
   10, -10, 10, -10, 10, -10, 10, -10, 10, -10,
   10, -10, 10, -10, 10, -10, 10, -10, 10, -10,
   10, -10, 10, -10, 10, -10, 10, -10, 10, -10]

/-- A 51-sample `C3` series whose single scanned window is `wW`. -/
def c3dataW : List ℚ := wW ++ [0]

/-- A constant random stream with value 3/4: above the 0.7 spindle gate. -/
def gW : RNG := ⟨fun _ => 3 / 4, 0⟩

/-- Concrete dataset for the detection witnesses: one `N2`-staged window of
high-variance data on channel `C3`. -/
def dsW : Dataset :=
  { time := [0], channels := [("C3", c3dataW)], sleepStages := ["N2"] }

/-- The single `sleep_spindle` event the detector emits on `dsW` with the
constant-3/4 random stream. -/
def evW : Event :=
  { time := some 0, type := "sleep_spindle",
    description := "Sleep spindle detected", confidence := 37 / 40,
    frequency := some 15, amplitude := none, duration := some (13 / 8) }

set_option maxHeartbeats 1000000 in
/-- Helper: the witness window's variance is 100. -/
theorem calculateVariance_wW : calculateVariance wW = 100 := by
  simp only [calculateVariance, wW, List.foldl_cons, List.foldl_nil,
    List.length_cons, List.length_nil]
  norm_num

set_option maxHeartbeats 1000000 in
/-- Helper: the witness window's mean absolute amplitude is 10. -/
theorem meanAmp_wW : wW.foldl (fun a b => a + |b|) 0 / (wW.length : ℚ) = 10 := by
  simp only [wW, List.foldl_cons, List.foldl_nil,
    List.length_cons, List.length_nil]
  norm_num

set_option maxHeartbeats 1000000 in
/-- Helper: the witness window's minimum is −10. -/
theorem jsMinList_wW : jsMinList wW = -10 := by
  simp only [jsMinList, wW, List.foldl_cons, List.foldl_nil]
  norm_num [min_def]

set_option maxHeartbeats 1000000 in
/-- Helper: the witness window's maximum is 10. -/
theorem jsMaxList_wW : jsMaxList wW = 10 := by
  simp only [jsMaxList, wW, List.foldl_cons, List.foldl_nil]
  norm_num [max_def]

/-- Helper: on the witness window the spindle detector accepts and consumes
exactly one random value. -/
theorem detectSpindle_wW : detectSpindle wW gW = (true, ⟨gW.stream, 1⟩) := by
  have hcond : 15 < calculateVariance wW ∧
      8 < wW.foldl (fun a b => a + |b|) 0 / (wW.length : ℚ) := by
    rw [calculateVariance_wW, meanAmp_wW]
    norm_num
  simp only [detectSpindle, if_pos hcond, RNG.next, Prod.mk.injEq]
  refine ⟨?_, rfl⟩
  simp only [decide_eq_true_eq, gW]
  norm_num

/-- Helper: on the witness window the K-complex detector rejects (peak-to-peak
20 is below the 50 threshold) without consuming a random value. -/
theorem detectKComplex_wW (g : RNG) : detectKComplex wW g = (false, g) := by
  have hcond : ¬ (50 < jsMaxList wW - jsMinList wW ∧ jsMinList wW < -25) := by
    rw [jsMaxList_wW, jsMinList_wW]
    norm_num
  simp only [detectKComplex, if_neg hcond]

/-- Helper: the spindle branch on the witness window emits exactly `evW` and
leaves the random cursor at 4. -/
theorem spindleEvents_wW :
    spindleEvents (some 0) (some "N2") wW gW = ([evW], ⟨gW.stream, 4⟩) := by
  simp only [spindleEvents, detectSpindle_wW, if_true, RNG.next]
  refine Prod.ext ?_ rfl
  simp only [evW, gW, List.cons.injEq, and_true, Event.mk.injEq]
  norm_num

/-- Helper: the K-complex branch on the witness window emits nothing. -/
theorem kComplexEvents_wW (g : RNG) :
    kComplexEvents (some 0) (some "N2") wW g = ([], g) := by
  simp [kComplexEvents, detectKComplex_wW]

/-- Helper: the REM branch is skipped on an `N2` window. -/
theorem remBurstEvents_wW (g : RNG) :
    remBurstEvents (some 0) (some "N2") wW g = ([], g) := by
  simp only [remBurstEvents]
  rw [if_neg (by decide : ¬ (some "N2" : Option String) = some "REM")]
  simp

/-- Helper: the one scanned window of `dsW` produces exactly `evW`. -/
theorem windowEvents_wW :
    windowEvents (some 0) (some "N2") wW gW = ([evW], ⟨gW.stream, 4⟩) := by
  simp only [windowEvents, spindleEvents_wW, kComplexEvents_wW,
    remBurstEvents_wW, List.append_nil]

/-- Helper: the detector on the concrete dataset `dsW` returns exactly the
one spindle event `evW`. -/
theorem run_dsW_eval : runSleepEventDetection dsW gW = [evW] := by
  show ((windowStarts c3dataW.length).foldl (windowStep dsW c3dataW)
    ([], gW)).1 = [evW]
  have hws : windowStarts c3dataW.length = [0] := rfl
  have hwnd : (c3dataW.drop 0).take windowSize = wW := rfl
  rw [hws]
  simp only [List.foldl_cons, List.foldl_nil, windowStep, hwnd]
  have ht0 : dsW.time[0]? = some 0 := rfl
  have hs0 : dsW.sleepStages[0]? = some "N2" := rfl
  rw [ht0, hs0, windowEvents_wW]
  rfl

/-- Witness for `stage_gating` at the concrete dataset `dsW`, stream `gW`
and emitted event `evW`. -/
theorem stage_gating_witness :
    ∃ cd, lookupChannel dsW.channels "C3" = some cd ∧
      ∃ i ∈ windowStarts cd.length,
        evW.time = dsW.time[i]? ∧
        ((evW.type = "sleep_spindle" ∨ evW.type = "k_complex") →
          dsW.sleepStages[i]? = some "N2") ∧
        (evW.type = "rem_burst" → dsW.sleepStages[i]? = some "REM") :=
  stage_gating dsW gW evW (by rw [run_dsW_eval]; simp)

/-- Witness for `window_scan_bounds`: concrete instances of all four
conjuncts — start 50 is scanned for a 101-sample series, covered indices stay
below the last sample, the final complete window of a 150-sample series is
not scanned, and the concrete emitted event `evW` originates at a scanned
start of `dsW`. -/
theorem window_scan_bounds_witness :
    (50 ∈ windowStarts 101) ∧ (50 + 49 + 1 < 101) ∧
    (150 - 50 ∉ windowStarts 150) ∧
    (∃ cd, lookupChannel dsW.channels "C3" = some cd ∧
      ∃ i ∈ windowStarts cd.length, evW.time = dsW.time[i]?) :=
  ⟨(window_scan_bounds.1 101 50).mpr (by decide),
   window_scan_bounds.2.1 101 50 49
     ((window_scan_bounds.1 101 50).mpr (by decide)) (by decide),
   window_scan_bounds.2.2.1 150 (by decide) (by decide),
   window_scan_bounds.2.2.2 dsW gW evW (by rw [run_dsW_eval]; simp)⟩
